import Mathlib

/-!
Shallow embedding of the signal-generation engine of trading-signals-v3
(source file src/strategy_v2.js).  Prices and indicator values are modelled
as rationals; JS number formatting inside human-readable description strings
is not modelled (those strings carry only their constant prefixes), and the
wall-clock pieces of a signal (Date.now based id, ISO timestamp) are modelled
as fixed placeholder strings since no property depends on them.
-/

/-- A price bar (kline): {time, open, high, low, close, volume}. -/
structure Bar where
  time : Nat
  «open» : ℚ
  high : ℚ
  low : ℚ
  close : ℚ
  volume : ℚ
deriving DecidableEq, Inhabited

/-- Ticker data supplied per instrument; the engine only reads field last. -/
structure Ticker where
  last : ℚ
  high24h : ℚ := 0
  low24h : ℚ := 0
  changePercent : ℚ := 0
  baseVolume : ℚ := 0
  quoteVolume : ℚ := 0
deriving DecidableEq, Inhabited

/-- CONFIG.MIN_KLINES. -/
def MIN_KLINES : Nat := 50

/-- CONFIG.OB_ENTRY_OFFSET (0.2%). -/
def OB_ENTRY_OFFSET : ℚ := 2 / 1000

/-- JS array.slice(-n): the last n elements (all of them when fewer exist). -/
def sliceLast (n : Nat) (l : List α) : List α := l.drop (l.length - n)

/-- Math.round: round half toward positive infinity. -/
def jsRound (x : ℚ) : Int := ⌊x + 1/2⌋

/-- The per-pair true ranges of calculateATR (loop i = 1 .. length-1). -/
def trueRanges (klines : List Bar) : List ℚ :=
  (List.range' 1 (klines.length - 1)).map (fun i =>
    let current := klines.getD i default
    let prev := klines.getD (i - 1) default
    let tr1 := current.high - current.low
    let tr2 := |current.high - prev.close|
    let tr3 := |current.low - prev.close|
    max tr1 (max tr2 tr3))

/-- calculateATR: mean of the last `period` true ranges; 0 on short input. -/
def calculateATR (klines : List Bar) (period : Nat := 14) : ℚ :=
  if klines.length < period + 1 then 0
  else
    let trValues := trueRanges klines
    let recentTR := sliceLast period trValues
    recentTR.sum / period

/-- calculateMA: mean of the last `period` closes; null (none) on short input. -/
def calculateMA (klines : List Bar) (period : Nat) : Option ℚ :=
  if klines.length < period then none
  else some (((sliceLast period klines).map Bar.close).sum / period)

/-- calculateRSI over the last `period` close-to-close changes; 50 on short
input, 100 when the average loss is zero. -/
def calculateRSI (klines : List Bar) (period : Nat := 14) : ℚ :=
  if klines.length < period + 1 then 50
  else
    let changes := (List.range' (klines.length - period) period).map (fun i =>
      (klines.getD i default).close - (klines.getD (i - 1) default).close)
    let gl := changes.foldl (fun (gl : ℚ × ℚ) change =>
      if change > 0 then (gl.1 + change, gl.2) else (gl.1, gl.2 + |change|)) (0, 0)
    let avgGain := gl.1 / period
    let avgLoss := gl.2 / period
    if avgLoss = 0 then 100
    else
      let rs := avgGain / avgLoss
      100 - (100 / (1 + rs))

/-- SwingPoint: {index, price, time}. -/
structure SwingPoint where
  index : Nat
  price : ℚ
  time : Nat
deriving DecidableEq, Inhabited

/-- The two time-ordered swing sequences of findSwingPoints. -/
structure SwingPoints where
  swingHighs : List SwingPoint
  swingLows : List SwingPoint
deriving DecidableEq, Inhabited

/-- Bar i is a swing high: its high strictly exceeds the highs of the
`lookback` bars on each side (negation of the break condition in the JS). -/
def isSwingHigh (klines : List Bar) (lookback i : Nat) : Prop :=
  ∀ j ∈ List.range' 1 lookback,
    (klines.getD (i - j) default).high < (klines.getD i default).high ∧
    (klines.getD (i + j) default).high < (klines.getD i default).high

instance (klines : List Bar) (lookback i : Nat) :
    Decidable (isSwingHigh klines lookback i) := by
  unfold isSwingHigh; infer_instance

/-- Bar i is a swing low: symmetric on lows. -/
def isSwingLow (klines : List Bar) (lookback i : Nat) : Prop :=
  ∀ j ∈ List.range' 1 lookback,
    (klines.getD i default).low < (klines.getD (i - j) default).low ∧
    (klines.getD i default).low < (klines.getD (i + j) default).low

instance (klines : List Bar) (lookback i : Nat) :
    Decidable (isSwingLow klines lookback i) := by
  unfold isSwingLow; infer_instance

/-- findSwingPoints: interior indices lookback ≤ i < length − lookback,
collected into the swing-high and swing-low lists in index order. -/
def findSwingPoints (klines : List Bar) (lookback : Nat := 5) : SwingPoints :=
  let idxs := List.range' lookback (klines.length - 2 * lookback)
  { swingHighs := idxs.filterMap (fun i =>
      if isSwingHigh klines lookback i then
        some ⟨i, (klines.getD i default).high, (klines.getD i default).time⟩
      else none),
    swingLows := idxs.filterMap (fun i =>
      if isSwingLow klines lookback i then
        some ⟨i, (klines.getD i default).low, (klines.getD i default).time⟩
      else none) }

/-- FairValueGap: {type, top, bottom, mid, timestamp, index}. -/
structure FVG where
  type : String
  top : ℚ
  bottom : ℚ
  mid : ℚ
  timestamp : Nat
  index : Nat
deriving DecidableEq, Inhabited

/-- detectFVG: for every consecutive triple (k1,k2,k3) ending at index i ≥ 2,
emit a bullish gap when k1.high < k3.low and a bearish gap when
k1.low > k3.high (k2 is not consulted). -/
def detectFVG (klines : List Bar) : List FVG :=
  (List.range' 2 (klines.length - 2)).flatMap (fun i =>
    let k1 := klines.getD (i - 2) default
    let k3 := klines.getD i default
    (if k1.high < k3.low then
      [{ type := "BULLISH", top := k3.low, bottom := k1.high,
         mid := (k3.low + k1.high) / 2, timestamp := k3.time, index := i }]
     else []) ++
    (if k1.low > k3.high then
      [{ type := "BEARISH", top := k1.low, bottom := k3.high,
         mid := (k1.low + k3.high) / 2, timestamp := k3.time, index := i }]
     else []))

/-- OrderBlock: {type, high, low, open, close, timestamp, index}. -/
structure OrderBlock where
  type : String
  high : ℚ
  low : ℚ
  «open» : ℚ
  close : ℚ
  timestamp : Nat
  index : Nat
deriving DecidableEq, Inhabited

/-- detectOrderBlocks: 4-bar windows (k0,k1,k2,k3) with k3 at index i, for
3 ≤ i < length − 1 (the window whose k3 is the final bar is skipped); the
emitted block's footprint is bar k2 at index i − 1. -/
def detectOrderBlocks (klines : List Bar) : List OrderBlock :=
  (List.range' 3 (klines.length - 1 - 3)).flatMap (fun i =>
    let k1 := klines.getD (i - 2) default
    let k2 := klines.getD (i - 1) default
    let k3 := klines.getD i default
    (if k1.close < k1.«open» ∧ k2.close < k2.«open» ∧ k3.close > k3.«open» ∧
        k3.close > k2.high ∧ k2.low < k1.low then
      [{ type := "BULLISH", high := k2.high, low := k2.low, «open» := k2.«open»,
         close := k2.close, timestamp := k2.time, index := i - 1 }]
     else []) ++
    (if k1.close > k1.«open» ∧ k2.close > k2.«open» ∧ k3.close < k3.«open» ∧
        k3.close < k2.low ∧ k2.high > k1.high then
      [{ type := "BEARISH", high := k2.high, low := k2.low, «open» := k2.«open»,
         close := k2.close, timestamp := k2.time, index := i - 1 }]
     else []))

/-- StructureBreak: {type, level, timestamp, confirmed}. -/
structure BOS where
  type : String
  level : ℚ
  timestamp : Nat
  confirmed : Bool
deriving DecidableEq, Inhabited

/-- klines[klines.length - 1]. -/
def lastBar (klines : List Bar) : Bar := klines.getD (klines.length - 1) default

/-- klines[klines.length - 2]. -/
def prevBar (klines : List Bar) : Bar := klines.getD (klines.length - 2) default

/-- swingHighs[swingHighs.length - 2]: second-to-last swing high. -/
def prevSwingHighOf (sp : SwingPoints) : SwingPoint :=
  sp.swingHighs.getD (sp.swingHighs.length - 2) default

/-- swingLows[swingLows.length - 2]: second-to-last swing low. -/
def prevSwingLowOf (sp : SwingPoints) : SwingPoint :=
  sp.swingLows.getD (sp.swingLows.length - 2) default

/-- detectBOS: requires at least two swing highs AND two swing lows, then
compares the two most recent closes against the second-to-last swing
extremes. -/
def detectBOS (klines : List Bar) (swingPoints : SwingPoints) : List BOS :=
  if swingPoints.swingHighs.length < 2 ∨ swingPoints.swingLows.length < 2 then []
  else
    let lastKline := lastBar klines
    let prevKline := prevBar klines
    let prevSwingHigh := prevSwingHighOf swingPoints
    let prevSwingLow := prevSwingLowOf swingPoints
    (if lastKline.close > prevSwingHigh.price ∧ prevKline.close ≤ prevSwingHigh.price then
      [{ type := "BULLISH", level := prevSwingHigh.price, timestamp := lastKline.time,
         confirmed := decide (lastKline.close > lastKline.«open») }]
     else []) ++
    (if lastKline.close < prevSwingLow.price ∧ prevKline.close ≥ prevSwingLow.price then
      [{ type := "BEARISH", level := prevSwingLow.price, timestamp := lastKline.time,
         confirmed := decide (lastKline.close < lastKline.«open») }]
     else [])

/-- Does a FairValueGap match the chosen direction (the filter predicate of
calculateSMCEntryPrice rule 1). -/
def fvgMatches (direction : String) (fvg : FVG) : Bool :=
  (direction == "LONG" && fvg.type == "BULLISH") ||
  (direction == "SHORT" && fvg.type == "BEARISH")

/-- Does an OrderBlock match the chosen direction (rule 2 filter). -/
def obMatches (direction : String) (ob : OrderBlock) : Bool :=
  (direction == "LONG" && ob.type == "BULLISH") ||
  (direction == "SHORT" && ob.type == "BEARISH")

/-- Result record of the entry price resolver.  The JS returns ad-hoc objects
whose optional fields differ per rule; absent fields are modelled as none. -/
structure EntryInfo where
  price : ℚ
  type : String
  description : String
  fvg : Option FVG := none
  ob : Option OrderBlock := none
  swing : Option SwingPoint := none
  tradable : Option Bool := none
  inFVG : Option Bool := none
  distance : Option ℚ := none
  fallback : Bool := false
deriving DecidableEq, Inhabited

/-- calculateSMCEntryPrice: the ordered entry fallback chain
(1 FVG midline, 2 order-block edge, 3 swing point, 4 current price). -/
def calculateSMCEntryPrice (direction : String) (klines : List Bar)
    (fvgList : List FVG) (obList : List OrderBlock) (swingPoints : SwingPoints)
    (currentPrice : ℚ) : EntryInfo :=
  let MAX_ENTRY_DISTANCE : ℚ := 15 / 1000
  let relevantFVGs := fvgList.filter (fvgMatches direction)
  if relevantFVGs.length > 0 then
    let lastFVG := relevantFVGs.getD (relevantFVGs.length - 1) default
    if direction = "LONG" then
      let fvgHeight := lastFVG.top - lastFVG.bottom
      -- CONFIG.FVG_ENTRY_RATIO = 0.5
      let entryPrice := lastFVG.bottom + fvgHeight * (1/2)
      let inFVG := decide (currentPrice ≥ lastFVG.bottom) &&
                   decide (currentPrice ≤ lastFVG.top)
      let distance := |currentPrice - entryPrice| / currentPrice
      let nearFVG := decide (distance < MAX_ENTRY_DISTANCE)
      { price := entryPrice, type := "FVG_MID",
        description := if inFVG then "FVG范围内入场" else "FVG中轴线目标",
        fvg := some lastFVG, tradable := some (inFVG || nearFVG),
        inFVG := some inFVG, distance := some distance }
    else
      let fvgHeight := lastFVG.top - lastFVG.bottom
      let entryPrice := lastFVG.top - fvgHeight * (1/2)
      let inFVG := decide (currentPrice ≥ lastFVG.bottom) &&
                   decide (currentPrice ≤ lastFVG.top)
      let distance := |currentPrice - entryPrice| / currentPrice
      let nearFVG := decide (distance < MAX_ENTRY_DISTANCE)
      { price := entryPrice, type := "FVG_MID",
        description := if inFVG then "FVG范围内入场" else "FVG中轴线目标",
        fvg := some lastFVG, tradable := some (inFVG || nearFVG),
        inFVG := some inFVG, distance := some distance }
  else
    let relevantOBs := obList.filter (obMatches direction)
    if relevantOBs.length > 0 then
      let lastOB := relevantOBs.getD (relevantOBs.length - 1) default
      if direction = "LONG" then
        { price := lastOB.high * (1 + OB_ENTRY_OFFSET), type := "OB_EDGE",
          description := "订单块边缘入场", ob := some lastOB }
      else
        { price := lastOB.low * (1 - OB_ENTRY_OFFSET), type := "OB_EDGE",
          description := "订单块边缘入场", ob := some lastOB }
    else if direction = "LONG" ∧ swingPoints.swingLows.length > 0 then
      let lastSwingLow := swingPoints.swingLows.getD (swingPoints.swingLows.length - 1) default
      { price := lastSwingLow.price * (1 + OB_ENTRY_OFFSET), type := "SWING_LOW",
        description := "摆动低点支撑入场", swing := some lastSwingLow }
    else if direction = "SHORT" ∧ swingPoints.swingHighs.length > 0 then
      let lastSwingHigh := swingPoints.swingHighs.getD (swingPoints.swingHighs.length - 1) default
      { price := lastSwingHigh.price * (1 - OB_ENTRY_OFFSET), type := "SWING_HIGH",
        description := "摆动高点阻力入场", swing := some lastSwingHigh }
    else
      { price := currentPrice, type := "CURRENT_PRICE",
        description := "当前价格入场(无理想技术位)", fallback := true }

/-- Result record of the stop-loss resolver. -/
structure SLInfo where
  price : ℚ
  type : String
  description : String
deriving DecidableEq, Inhabited

/-- calculateSL: the independent stop-loss fallback chain. -/
def calculateSL (direction : String) (entryPrice : ℚ) (klines : List Bar)
    (fvgList : List FVG) (obList : List OrderBlock) (swingPoints : SwingPoints)
    (atr : ℚ) : SLInfo :=
  if direction = "LONG" then
    let bullishFVGs := fvgList.filter (fun f => f.type == "BULLISH")
    if bullishFVGs.length > 0 then
      let lastFVG := bullishFVGs.getD (bullishFVGs.length - 1) default
      { price := lastFVG.bottom * (998/1000), type := "FVG_BOTTOM",
        description := "FVG下沿止损" }
    else
      let bullishOBs := obList.filter (fun o => o.type == "BULLISH")
      if bullishOBs.length > 0 then
        let lastOB := bullishOBs.getD (bullishOBs.length - 1) default
        { price := lastOB.low * (998/1000), type := "OB_LOW",
          description := "订单块下沿止损" }
      else if swingPoints.swingLows.length > 0 then
        let lastSwingLow := swingPoints.swingLows.getD (swingPoints.swingLows.length - 1) default
        { price := lastSwingLow.price * (995/1000), type := "SWING_LOW",
          description := "摆动低点止损" }
      else
        { price := entryPrice - atr * (3/2), type := "ATR", description := "ATR止损" }
  else
    let bearishFVGs := fvgList.filter (fun f => f.type == "BEARISH")
    if bearishFVGs.length > 0 then
      let lastFVG := bearishFVGs.getD (bearishFVGs.length - 1) default
      { price := lastFVG.top * (1002/1000), type := "FVG_TOP",
        description := "FVG上沿止损" }
    else
      let bearishOBs := obList.filter (fun o => o.type == "BEARISH")
      if bearishOBs.length > 0 then
        let lastOB := bearishOBs.getD (bearishOBs.length - 1) default
        { price := lastOB.high * (1002/1000), type := "OB_HIGH",
          description := "订单块上沿止损" }
      else if swingPoints.swingHighs.length > 0 then
        let lastSwingHigh := swingPoints.swingHighs.getD (swingPoints.swingHighs.length - 1) default
        { price := lastSwingHigh.price * (1005/1000), type := "SWING_HIGH",
          description := "摆动高点止损" }
      else
        { price := entryPrice + atr * (3/2), type := "ATR", description := "ATR止损" }

/-- Direction, confidence and reason determined from MAs, RSI and recent FVGs. -/
structure DirConf where
  direction : String
  confidence : ℚ
  reason : String
deriving DecidableEq, Inhabited

/-- Direction and base confidence from MA20/MA50 and RSI (null and zero MAs
behave as falsy, as in the JS truthiness test), then the +10 structure
confirmation from the 3 most recent FVGs. -/
def directionAndConfidence (ma20 ma50 : Option ℚ) (rsi : ℚ)
    (fvgList : List FVG) : DirConf :=
  let base : DirConf :=
    match ma20, ma50 with
    | some a, some b =>
      if a ≠ 0 ∧ b ≠ 0 then
        if a > b ∧ rsi > 50 then
          ⟨"LONG", 60 + (rsi - 50) * (1/2), "MA20>MA50且RSI>50"⟩
        else if a < b ∧ rsi < 50 then
          ⟨"SHORT", 60 + (50 - rsi) * (1/2), "MA20<MA50且RSI<50"⟩
        else ⟨"LONG", 50, ""⟩
      else ⟨"LONG", 50, ""⟩
    | _, _ => ⟨"LONG", 50, ""⟩
  let recentFVGs := sliceLast 3 fvgList
  let bullishFVGs := (recentFVGs.filter (fun f => f.type == "BULLISH")).length
  let bearishFVGs := (recentFVGs.filter (fun f => f.type == "BEARISH")).length
  if bullishFVGs > bearishFVGs ∧ base.direction = "LONG" then
    ⟨base.direction, base.confidence + 10, base.reason ++ ", 看涨FVG占优"⟩
  else if bearishFVGs > bullishFVGs ∧ base.direction = "SHORT" then
    ⟨base.direction, base.confidence + 10, base.reason ++ ", 看跌FVG占优"⟩
  else base

/-- risk, take-profit targets and reward:risk ratio computed from direction,
entry and stop (strategy_v2.js lines 514-526). -/
structure Targets where
  risk : ℚ
  tp1 : ℚ
  tp2 : ℚ
  rrr : ℚ
deriving DecidableEq, Inhabited

/-- computeTargets: risk = |entry − stop|; tp1/tp2 at 2x/3x risk in the trade
direction; rrr = (tp1 − entry)/risk, defaulting to 2 when risk is 0. -/
def computeTargets (direction : String) (entryPrice stopLoss : ℚ) : Targets :=
  let risk := |entryPrice - stopLoss|
  let tp1 := if direction = "LONG" then entryPrice + risk * 2 else entryPrice - risk * 2
  let tp2 := if direction = "LONG" then entryPrice + risk * 3 else entryPrice - risk * 3
  let rrr := if risk > 0 then (tp1 - entryPrice) / risk else 2
  ⟨risk, tp1, tp2, rrr⟩

/-- rating and signal classification. -/
structure RatingInfo where
  rating : String
  signalType : String
deriving DecidableEq, Inhabited

/-- determineRating: threshold chain on confidence, then the unsupported
current-price-entry override (strategy_v2.js lines 528-547). -/
def determineRating (confidence : ℚ) (entryType : String) : RatingInfo :=
  let base : RatingInfo :=
    if confidence ≥ 85 ∧ entryType ≠ "CURRENT_PRICE" then ⟨"S", "TRADABLE"⟩
    else if confidence ≥ 70 ∧ entryType ≠ "CURRENT_PRICE" then ⟨"A", "TRADABLE"⟩
    else if confidence ≥ 55 then
      ⟨"B", if entryType ≠ "CURRENT_PRICE" then "TRADABLE" else "CANDIDATE"⟩
    else ⟨"C", "CANDIDATE"⟩
  if entryType = "CURRENT_PRICE" then ⟨"C", "CANDIDATE"⟩ else base

/-- The trimmed structure snapshot attached to a signal. -/
structure StructureSnapshot where
  fvg : List FVG
  order_blocks : List OrderBlock
  swing_highs : List SwingPoint
  swing_lows : List SwingPoint
  bos : List BOS
deriving DecidableEq, Inhabited

/-- One immutable signal record. -/
structure Signal where
  id : String
  symbol : String
  direction : String
  entry_price : ℚ
  entry_type : String
  entry_description : String
  current_price : ℚ
  sl : ℚ
  sl_type : String
  sl_description : String
  tp1 : ℚ
  tp2 : ℚ
  rrr : ℚ
  rating : String
  score : Int
  signal_type : String
  status : String
  timestamp : String
  timeframe : String
  data_source : String
  direction_reason : String
  snapshot : StructureSnapshot
  atr : ℚ
deriving DecidableEq, Inhabited

/-- generateSignal: current price from the ticker (JS falsy fallback to the
last close), indicators and structures, direction/confidence, entry, stop,
targets, rating, and the assembled record. -/
def generateSignal (symbol : String) (klines : List Bar)
    (ticker : Option Ticker) : Signal :=
  let currentPrice :=
    match ticker with
    | some t => if t.last = 0 then (lastBar klines).close else t.last
    | none => (lastBar klines).close
  let atr := calculateATR klines
  let ma20 := calculateMA klines 20
  let ma50 := calculateMA klines 50
  let rsi := calculateRSI klines
  let swingPoints := findSwingPoints klines
  let fvgList := detectFVG klines
  let obList := detectOrderBlocks klines
  let bosList := detectBOS klines swingPoints
  let dc := directionAndConfidence ma20 ma50 rsi fvgList
  let entryInfo := calculateSMCEntryPrice dc.direction klines fvgList obList
    swingPoints currentPrice
  let entryPrice := entryInfo.price
  let slInfo := calculateSL dc.direction entryPrice klines fvgList obList
    swingPoints atr
  let stopLoss := slInfo.price
  let tgt := computeTargets dc.direction entryPrice stopLoss
  let rt := determineRating dc.confidence entryInfo.type
  { id := symbol ++ "_", symbol := symbol, direction := dc.direction,
    entry_price := entryPrice, entry_type := entryInfo.type,
    entry_description := entryInfo.description, current_price := currentPrice,
    sl := stopLoss, sl_type := slInfo.type, sl_description := slInfo.description,
    tp1 := tgt.tp1, tp2 := tgt.tp2, rrr := tgt.rrr, rating := rt.rating,
    score := jsRound dc.confidence, signal_type := rt.signalType,
    status := "ACTIVE", timestamp := "", timeframe := "4H",
    data_source := "Gate.io API", direction_reason := dc.reason,
    snapshot := { fvg := sliceLast 3 fvgList, order_blocks := sliceLast 3 obList,
                  swing_highs := sliceLast 3 swingPoints.swingHighs,
                  swing_lows := sliceLast 3 swingPoints.swingLows,
                  bos := bosList },
    atr := atr }

/-- The fixed 54-instrument universe (SYMBOLS_54 in gateio.js). -/
def SYMBOLS_54 : List String :=
  ["BTC_USDT", "ETH_USDT", "BNB_USDT", "SOL_USDT", "XRP_USDT",
   "DOGE_USDT", "TRX_USDT", "ADA_USDT", "AVAX_USDT", "LINK_USDT",
   "TON_USDT", "SUI_USDT", "DOT_USDT", "XLM_USDT", "SHIB_USDT",
   "LTC_USDT", "BCH_USDT", "UNI_USDT", "APT_USDT", "NEAR_USDT",
   "ICP_USDT", "ETC_USDT", "HBAR_USDT", "VET_USDT", "FIL_USDT",
   "ALGO_USDT", "THETA_USDT", "XTZ_USDT", "AXS_USDT", "SAND_USDT",
   "MANA_USDT", "GALA_USDT", "CHZ_USDT", "ENJ_USDT", "BAT_USDT",
   "ZIL_USDT", "IOTA_USDT", "EOS_USDT", "NEO_USDT", "QTUM_USDT",
   "ONT_USDT", "ZRX_USDT", "KNC_USDT", "COMP_USDT", "MKR_USDT",
   "YFI_USDT", "AAVE_USDT", "CRV_USDT", "SNX_USDT", "1INCH_USDT",
   "SUSHI_USDT", "LRC_USDT", "DYDX_USDT", "PEPE_USDT"]

/-- A filtered-out instrument: {symbol, reason, optional error detail}. -/
structure FilteredEntry where
  symbol : String
  reason : String
  error : Option String := none
deriving DecidableEq, Inhabited

/-- Data-health summary of a scan. -/
structure DataHealth where
  status : String
  kline_count : Nat
  ticker_count : Nat
deriving DecidableEq, Inhabited

/-- One ScanResult per orchestration run. -/
structure ScanResult where
  scan_time : String
  total_signals : Nat
  signals : List Signal
  filtered : List FilteredEntry
  data_health : DataHealth
deriving DecidableEq, Inhabited

/-- One iteration of the scan loop: filter on insufficient data or missing
ticker, otherwise generate the signal.  generateSignal is total in this
embedding, so the JS catch branch (GENERATION_ERROR) cannot fire. -/
def scanStep (klinesData : List (String × List Bar))
    (tickers : List (String × Ticker))
    (acc : List Signal × List FilteredEntry) (symbol : String) :
    List Signal × List FilteredEntry :=
  match klinesData.lookup symbol with
  | none => (acc.1, acc.2 ++ [⟨symbol, "INSUFFICIENT_DATA", none⟩])
  | some klines =>
    if klines.length < MIN_KLINES then
      (acc.1, acc.2 ++ [⟨symbol, "INSUFFICIENT_DATA", none⟩])
    else
      match tickers.lookup symbol with
      | none => (acc.1, acc.2 ++ [⟨symbol, "NO_TICKER_DATA", none⟩])
      | some ticker => (acc.1 ++ [generateSignal symbol klines (some ticker)], acc.2)

/-- scanAllSymbolsV2: iterate the fixed universe, then sort signals by score
descending (a stable sort, as JS Array.prototype.sort)." -/
def scanAllSymbolsV2 (klinesData : List (String × List Bar))
    (tickers : List (String × Ticker)) : ScanResult :=
  let res := SYMBOLS_54.foldl (scanStep klinesData tickers) ([], [])
  let sorted := List.insertionSort (fun a b => b.score ≤ a.score) res.1
  { scan_time := "", total_signals := sorted.length, signals := sorted,
    filtered := res.2,
    data_health := ⟨"HEALTHY", klinesData.length, tickers.length⟩ }

/-! Concrete inputs used by witnesses and counterexamples. -/

/-- 16 identical bars with a 2-point range: no swing points, gaps or order
blocks, ATR 2; entry falls back to the current price with positive risk. -/
def flatRange16 : List Bar :=
  (List.range 16).map fun i => { time := i, «open» := 100, high := 101, low := 99,
                                 close := 100, volume := 1 }

/-- 50 completely flat bars: every indicator degenerates, ATR 0, so entry,
stop and both targets coincide. -/
def flat50 : List Bar :=
  (List.range 50).map fun i => { time := i, «open» := 100, high := 100, low := 100,
                                 close := 100, volume := 1 }

/-- 50 bars with strictly descending closes: MA20 < MA50, RSI 0, no
structures, so a SHORT signal with the current-price fallback and ATR stop. -/
def descending50 : List Bar :=
  (List.range 50).map fun i =>
    { time := i, «open» := (1000 - (i : ℚ)) + 1/2, high := (1000 - (i : ℚ)) + 1,
      low := (1000 - (i : ℚ)) - 1, close := 1000 - (i : ℚ), volume := 1 }

/-- 50 bars with strictly ascending closes and a constant low: RSI 100 and
MA20 > MA50 give confidence 85, yet no bullish structure exists, so the entry
falls back to the current price. -/
def ascending50 : List Bar :=
  (List.range 50).map fun i =>
    { time := i, «open» := 1000 + (i : ℚ) - 1, high := 1000 + (i : ℚ) + 1,
      low := 90, close := 1000 + (i : ℚ), volume := 1 }

/-- Close series of gapUp50: an early up-gap produces bullish FVGs while the
last 20 closes alternate 100/101, so MA20 = MA50 = 100.5 and RSI = 50. -/
def gapUp50Close (i : Nat) : ℚ :=
  if i < 2 then 90
  else if i < 8 then 95
  else if i < 10 then 110
  else if i < 19 then 119 - (i : ℚ)
  else if i < 30 then 100
  else if i % 2 = 0 then 100 else 101

/-- 50 bars whose most recent FVGs are all bullish while MA20 = MA50 and
RSI = 50 exactly. -/
def gapUp50 : List Bar :=
  (List.range 50).map fun i =>
    { time := i, «open» := gapUp50Close i, high := gapUp50Close i + 1,
      low := gapUp50Close i - 1, close := gapUp50Close i, volume := 1 }

/-- High series of bosAsym20. -/
def bosAsym20High : List ℚ :=
  [100, 101, 102, 103, 104, 105, 110, 105, 104, 103,
   102, 101, 100, 112, 100, 101, 102, 103, 104, 111]

/-- 20 bars with two swing highs (110 at index 6, 112 at index 13) but a
constant low of 90, hence no swing lows; the final close 111 breaks the
second-to-last swing high 110 while the previous close 100 was below it. -/
def bosAsym20 : List Bar :=
  (List.range 20).map fun i =>
    { time := i, «open» := 100, high := bosAsym20High.getD i 0, low := 90,
      close := if i = 19 then 111 else 100, volume := 1 }

/-- High series of zigzag26. -/
def zigzag26High : List ℚ :=
  [100, 101, 102, 103, 104, 105, 110, 105, 104, 103,
   102, 101, 102, 103, 104, 105, 112, 105, 104, 103,
   102, 101, 100, 99, 98, 113]

/-- Low series of zigzag26. -/
def zigzag26Low : List ℚ :=
  [95, 94, 93, 92, 91, 90, 89, 88, 87, 86,
   85, 80, 85, 86, 87, 88, 89, 88, 87, 82,
   87, 88, 89, 90, 91, 92]

/-- 26 bars with two swing highs (indices 6 and 16) and two swing lows
(indices 11 and 19); the final bar closes at 111, above the second-to-last
swing high 110, after a previous close below it. -/
def zigzag26 : List Bar :=
  (List.range 26).map fun i =>
    { time := i,
      «open» := if i = 25 then 100 else zigzag26Low.getD i 0 + 2,
      high := zigzag26High.getD i 0, low := zigzag26Low.getD i 0,
      close := if i = 25 then 111 else zigzag26Low.getD i 0 + 2, volume := 1 }

/-- Three bars with a bullish fair-value gap: bar 0 high 10 < bar 2 low 12. -/
def gapBars3 : List Bar :=
  [{ time := 0, «open» := 9.5, high := 10, low := 9, close := 9.8, volume := 1 },
   { time := 1, «open» := 11, high := 11.5, low := 10.5, close := 11, volume := 1 },
   { time := 2, «open» := 12.5, high := 13, low := 12, close := 12.5, volume := 1 }]

/-- Five bars forming one bullish order block (footprint bar index 2) with a
trailing bar so the reversal bar is not the final one. -/
def obBars5 : List Bar :=
  [{ time := 0, «open» := 10, high := 11, low := 9, close := 10, volume := 1 },
   { time := 1, «open» := 10, high := 10.5, low := 8.5, close := 9, volume := 1 },
   { time := 2, «open» := 9, high := 9.5, low := 7, close := 8, volume := 1 },
   { time := 3, «open» := 8, high := 12.5, low := 7.5, close := 12, volume := 1 },
   { time := 4, «open» := 12, high := 13, low := 11, close := 12, volume := 1 }]

/-- A bullish gap record used to exercise the entry resolver directly. -/
def sampleFVG : FVG :=
  { type := "BULLISH", top := 12, bottom := 10, mid := 11, timestamp := 2, index := 2 }

/-- A bullish order block used to exercise the entry resolver directly. -/
def sampleOB : OrderBlock :=
  { type := "BULLISH", high := 9.5, low := 7, «open» := 9, close := 8,
    timestamp := 2, index := 2 }

/-- 50 bars alternating close 100/101: MA20 = MA50 = 100.5, RSI = 50, and no
fair-value gaps at all. -/
def alternating50 : List Bar :=
  (List.range 50).map fun i =>
    let c : ℚ := if i % 2 = 0 then 100 else 101
    { time := i, «open» := c, high := c + 1, low := c - 1, close := c, volume := 1 }

/-! Claim theorems. -/

/-- C1: every generated Signal whose entry type is the unsupported
current-price fallback has rating C and classification candidate, whatever
the computed confidence. -/
theorem C1_current_price_forces_candidate (symbol : String) (klines : List Bar)
    (ticker : Option Ticker)
    (h : (generateSignal symbol klines ticker).entry_type = "CURRENT_PRICE") :
    (generateSignal symbol klines ticker).rating = "C" ∧
    (generateSignal symbol klines ticker).signal_type = "CANDIDATE" := by
  simp only [generateSignal] at h ⊢
  rw [h]
  simp [determineRating]

set_option maxRecDepth 8000 in
set_option maxHeartbeats 4000000 in
/-- C1 witness: on ascending50 the computed confidence is 85 (score 85), the
entry type is the current-price fallback, and the override still forces
rating C and classification candidate. -/
theorem C1_witness :
    (generateSignal "BTC_USDT" ascending50 (some { last := 1049 })).entry_type
        = "CURRENT_PRICE" ∧
    (generateSignal "BTC_USDT" ascending50 (some { last := 1049 })).score = 85 ∧
    (generateSignal "BTC_USDT" ascending50 (some { last := 1049 })).rating = "C" ∧
    (generateSignal "BTC_USDT" ascending50 (some { last := 1049 })).signal_type
        = "CANDIDATE" := by
  refine ⟨by with_unfolding_all decide, by with_unfolding_all decide, ?_⟩
  exact C1_current_price_forces_candidate "BTC_USDT" ascending50
    (some { last := 1049 }) (by with_unfolding_all decide)

set_option maxRecDepth 8000 in
set_option maxHeartbeats 8000000 in
/-- C2: on descending50 the emitted signal is SHORT with entry 950, stop 953
(risk 3 > 0) and tp1 944, and the reported rrr is (tp1 − entry)/risk = −2,
not the claimed (entry − tp1)/risk = 2. -/
theorem C2_short_rrr_sign_flip :
    (generateSignal "ETH_USDT" descending50 (some { last := 950 })).direction = "SHORT" ∧
    (generateSignal "ETH_USDT" descending50 (some { last := 950 })).entry_price = 950 ∧
    (generateSignal "ETH_USDT" descending50 (some { last := 950 })).sl = 953 ∧
    (generateSignal "ETH_USDT" descending50 (some { last := 950 })).tp1 = 944 ∧
    (generateSignal "ETH_USDT" descending50 (some { last := 950 })).rrr = -2 ∧
    ((generateSignal "ETH_USDT" descending50 (some { last := 950 })).entry_price -
        (generateSignal "ETH_USDT" descending50 (some { last := 950 })).tp1) /
      |(generateSignal "ETH_USDT" descending50 (some { last := 950 })).entry_price -
        (generateSignal "ETH_USDT" descending50 (some { last := 950 })).sl| = 2 := by
  with_unfolding_all decide

set_option maxRecDepth 8000 in
set_option maxHeartbeats 8000000 in
/-- C3 counterexample: on 50 completely flat bars the emitted signal is LONG
with zero risk, so entry, tp1 and tp2 coincide and entry < tp1 fails. -/
theorem C3_counterexample :
    (generateSignal "XRP_USDT" flat50 (some { last := 100 })).direction = "LONG" ∧
    (generateSignal "XRP_USDT" flat50 (some { last := 100 })).entry_price =
      (generateSignal "XRP_USDT" flat50 (some { last := 100 })).tp1 ∧
    ¬ ((generateSignal "XRP_USDT" flat50 (some { last := 100 })).entry_price <
        (generateSignal "XRP_USDT" flat50 (some { last := 100 })).tp1) := by
  with_unfolding_all decide

set_option maxRecDepth 4000 in
set_option maxHeartbeats 2000000 in
/-- Every signal's direction, entry, stop, tp1, tp2 and rrr are related
through computeTargets. -/
lemma generateSignal_targets (symbol : String) (klines : List Bar)
    (ticker : Option Ticker) :
    ∃ d e z, (generateSignal symbol klines ticker).direction = d ∧
      (generateSignal symbol klines ticker).entry_price = e ∧
      (generateSignal symbol klines ticker).sl = z ∧
      (generateSignal symbol klines ticker).tp1 = (computeTargets d e z).tp1 ∧
      (generateSignal symbol klines ticker).tp2 = (computeTargets d e z).tp2 ∧
      (generateSignal symbol klines ticker).rrr = (computeTargets d e z).rrr :=
  ⟨_, _, _, rfl, rfl, rfl, rfl, rfl, rfl⟩

/-- With positive risk, the computed targets are strictly ordered in the
trade direction. -/
lemma computeTargets_strict (d : String) (e z : ℚ) (h : e ≠ z) :
    (d = "LONG" → e < (computeTargets d e z).tp1 ∧
      (computeTargets d e z).tp1 < (computeTargets d e z).tp2) ∧
    (d = "SHORT" → (computeTargets d e z).tp1 < e ∧
      (computeTargets d e z).tp2 < (computeTargets d e z).tp1) := by
  have hr : 0 < |e - z| := abs_pos.mpr (sub_ne_zero.mpr h)
  constructor
  · intro hd; subst hd
    have t1 : (computeTargets "LONG" e z).tp1 = e + |e - z| * 2 := rfl
    have t2 : (computeTargets "LONG" e z).tp2 = e + |e - z| * 3 := rfl
    rw [t1, t2]
    constructor <;> nlinarith [hr]
  · intro hd; subst hd
    have t1 : (computeTargets "SHORT" e z).tp1 = e - |e - z| * 2 := rfl
    have t2 : (computeTargets "SHORT" e z).tp2 = e - |e - z| * 3 := rfl
    rw [t1, t2]
    constructor <;> nlinarith [hr]

/-- C3 amended: whenever the emitted signal's risk |entry − stop| is nonzero,
a LONG signal satisfies entry < tp1 < tp2 and a SHORT signal satisfies
entry > tp1 > tp2; with zero risk entry, tp1 and tp2 coincide (see the
counterexample). -/
theorem C3_target_ordering (symbol : String) (klines : List Bar)
    (ticker : Option Ticker)
    (hrisk : (generateSignal symbol klines ticker).entry_price ≠
      (generateSignal symbol klines ticker).sl) :
    ((generateSignal symbol klines ticker).direction = "LONG" →
      (generateSignal symbol klines ticker).entry_price <
        (generateSignal symbol klines ticker).tp1 ∧
      (generateSignal symbol klines ticker).tp1 <
        (generateSignal symbol klines ticker).tp2) ∧
    ((generateSignal symbol klines ticker).direction = "SHORT" →
      (generateSignal symbol klines ticker).tp1 <
        (generateSignal symbol klines ticker).entry_price ∧
      (generateSignal symbol klines ticker).tp2 <
        (generateSignal symbol klines ticker).tp1) := by
  obtain ⟨d, e, z, hd, he, hz, h1, h2, _⟩ :=
    generateSignal_targets symbol klines ticker
  rw [he, hz] at hrisk
  rw [hd, he, h1, h2]
  exact computeTargets_strict d e z hrisk

set_option maxRecDepth 8000 in
set_option maxHeartbeats 8000000 in
/-- C3 witness: on flatRange16 the signal is LONG with entry 100, stop 97,
and indeed entry < tp1 < tp2. -/
theorem C3_target_ordering_witness :
    (generateSignal "SOL_USDT" flatRange16 (some { last := 100 })).entry_price <
      (generateSignal "SOL_USDT" flatRange16 (some { last := 100 })).tp1 ∧
    (generateSignal "SOL_USDT" flatRange16 (some { last := 100 })).tp1 <
      (generateSignal "SOL_USDT" flatRange16 (some { last := 100 })).tp2 :=
  (C3_target_ordering "SOL_USDT" flatRange16 (some { last := 100 })
    (by with_unfolding_all decide)).1 (by with_unfolding_all decide)

set_option maxRecDepth 4000 in
set_option maxHeartbeats 2000000 in
/-- C4 counterexample: bosAsym20 yields two swing highs but zero swing lows;
the bullish-break close conditions hold against the second-to-last swing
high, yet detectBOS emits nothing because it also requires two swing lows of
the opposite kind. -/
theorem C4_counterexample :
    (findSwingPoints bosAsym20 5).swingHighs.length = 2 ∧
    (findSwingPoints bosAsym20 5).swingLows.length = 0 ∧
    (prevBar bosAsym20).close ≤ (prevSwingHighOf (findSwingPoints bosAsym20 5)).price ∧
    (prevSwingHighOf (findSwingPoints bosAsym20 5)).price < (lastBar bosAsym20).close ∧
    detectBOS bosAsym20 (findSwingPoints bosAsym20 5) = [] := by
  with_unfolding_all decide

/-- C4 amended: provided at least two swing highs AND at least two swing lows
exist, a bullish break is emitted exactly when the previous close was ≤ the
second-to-last swing high's price and the latest close exceeds it, with level
that price and confirmed iff the latest bar closed above its open; bearish
symmetric against the second-to-last swing low. -/
theorem C4_bos_characterization (klines : List Bar) (sp : SwingPoints)
    (hh : 2 ≤ sp.swingHighs.length) (hl : 2 ≤ sp.swingLows.length) :
    ((∃ b ∈ detectBOS klines sp, b.type = "BULLISH") ↔
      ((prevBar klines).close ≤ (prevSwingHighOf sp).price ∧
       (prevSwingHighOf sp).price < (lastBar klines).close)) ∧
    (∀ b ∈ detectBOS klines sp, b.type = "BULLISH" →
      b.level = (prevSwingHighOf sp).price ∧
      b.timestamp = (lastBar klines).time ∧
      (b.confirmed = true ↔ (lastBar klines).«open» < (lastBar klines).close)) ∧
    ((∃ b ∈ detectBOS klines sp, b.type = "BEARISH") ↔
      ((prevSwingLowOf sp).price ≤ (prevBar klines).close ∧
       (lastBar klines).close < (prevSwingLowOf sp).price)) ∧
    (∀ b ∈ detectBOS klines sp, b.type = "BEARISH" →
      b.level = (prevSwingLowOf sp).price ∧
      b.timestamp = (lastBar klines).time ∧
      (b.confirmed = true ↔ (lastBar klines).close < (lastBar klines).«open»)) := by
  have hg : ¬ (sp.swingHighs.length < 2 ∨ sp.swingLows.length < 2) := by omega
  simp only [detectBOS, if_neg hg]
  split_ifs with h1 h2 h3 <;>
    simp_all [List.mem_append, and_comm, decide_eq_true_eq] <;>
    try tauto
  refine ⟨⟨_, ?_, Or.inr rfl⟩, ⟨_, ?_, Or.inl rfl⟩⟩ <;> rfl

set_option maxRecDepth 4000 in
set_option maxHeartbeats 4000000 in
/-- C4 witness: zigzag26 has exactly two swing highs and two swing lows and
its final close 111 breaks the second-to-last swing high 110, so a bullish
break is emitted. -/
theorem C4_witness :
    (findSwingPoints zigzag26 5).swingHighs.length = 2 ∧
    (findSwingPoints zigzag26 5).swingLows.length = 2 ∧
    (∃ b ∈ detectBOS zigzag26 (findSwingPoints zigzag26 5), b.type = "BULLISH") := by
  refine ⟨by with_unfolding_all decide, by with_unfolding_all decide, ?_⟩
  exact (C4_bos_characterization zigzag26 (findSwingPoints zigzag26 5)
      (by with_unfolding_all decide) (by with_unfolding_all decide)).1.mpr
    (by with_unfolding_all decide)

set_option maxRecDepth 8000 in
set_option maxHeartbeats 8000000 in
/-- C5 counterexample: gapUp50 has MA20 = MA50 = 100.5 exactly and RSI = 50
exactly, yet its three most recent fair-value gaps are all bullish, so the
+10 structure confirmation fires: the signal scores 60 with rating B, not
confidence 50 and rating C. -/
theorem C5_counterexample :
    calculateMA gapUp50 20 = some (201/2) ∧
    calculateMA gapUp50 50 = some (201/2) ∧
    calculateRSI gapUp50 14 = 50 ∧
    (generateSignal "ADA_USDT" gapUp50 (some { last := 100 })).direction = "LONG" ∧
    (generateSignal "ADA_USDT" gapUp50 (some { last := 100 })).score = 60 ∧
    (generateSignal "ADA_USDT" gapUp50 (some { last := 100 })).rating = "B" := by
  with_unfolding_all decide

/-- At confidence 50, the rating chain always lands on C whatever the entry
type. -/
lemma determineRating_conf50 (t : String) : (determineRating 50 t).rating = "C" := by
  unfold determineRating
  have h1 : ¬ ((50:ℚ) ≥ 85 ∧ t ≠ "CURRENT_PRICE") := by rintro ⟨h, -⟩; norm_num at h
  have h2 : ¬ ((50:ℚ) ≥ 70 ∧ t ≠ "CURRENT_PRICE") := by rintro ⟨h, -⟩; norm_num at h
  have h3 : ¬ ((50:ℚ) ≥ 55) := by norm_num
  simp only [if_neg h1, if_neg h2, if_neg h3]
  split_ifs <;> rfl

/-- With equal available MAs the base branch is the neutral LONG/50 default,
and without a bullish-majority among the last three gaps no boost applies. -/
lemma directionAndConfidence_neutral (v rsi : ℚ) (fvgList : List FVG)
    (hfvg : ¬ ((sliceLast 3 fvgList).filter (fun f => f.type == "BULLISH")).length >
        ((sliceLast 3 fvgList).filter (fun f => f.type == "BEARISH")).length) :
    directionAndConfidence (some v) (some v) rsi fvgList = ⟨"LONG", 50, ""⟩ := by
  unfold directionAndConfidence
  have hbase : (if v ≠ 0 ∧ v ≠ 0 then
      if v > v ∧ rsi > 50 then (⟨"LONG", 60 + (rsi - 50) * (1/2), "MA20>MA50且RSI>50"⟩ : DirConf)
      else if v < v ∧ rsi < 50 then ⟨"SHORT", 60 + (50 - rsi) * (1/2), "MA20<MA50且RSI<50"⟩
      else ⟨"LONG", 50, ""⟩
    else ⟨"LONG", 50, ""⟩) = ⟨"LONG", 50, ""⟩ := by
    split_ifs with h1 h2 h3 <;> first
      | rfl
      | exact absurd h2.1 (lt_irrefl v)
      | exact absurd h3.1 (lt_irrefl v)
  simp only
  rw [hbase]
  split_ifs with h1 h2
  · exact absurd h1.1 hfvg
  · exact absurd h2.2 (by decide)
  · rfl

set_option maxRecDepth 4000 in
set_option maxHeartbeats 2000000 in
/-- Every signal's direction, score and rating are those computed by
directionAndConfidence and determineRating on the signal's own inputs. -/
lemma generateSignal_rating_score (symbol : String) (klines : List Bar)
    (ticker : Option Ticker) :
    ∃ t, (generateSignal symbol klines ticker).direction =
        (directionAndConfidence (calculateMA klines 20) (calculateMA klines 50)
          (calculateRSI klines 14) (detectFVG klines)).direction ∧
      (generateSignal symbol klines ticker).score =
        jsRound (directionAndConfidence (calculateMA klines 20) (calculateMA klines 50)
          (calculateRSI klines 14) (detectFVG klines)).confidence ∧
      (generateSignal symbol klines ticker).rating =
        (determineRating (directionAndConfidence (calculateMA klines 20)
          (calculateMA klines 50) (calculateRSI klines 14)
          (detectFVG klines)).confidence t).rating :=
  ⟨_, rfl, rfl, rfl⟩

/-- C5 amended: when SMA(20) and SMA(50) are both available and exactly equal,
RSI is exactly 50, and the three most recent fair-value gaps do not have a
strict bullish majority, the generated signal is LONG with score 50 and
rating C.  (With a bullish FVG majority the +10 confirmation lifts the score
to 60 and the rating to B; see the counterexample.) -/
theorem C5_neutral_default (symbol : String) (klines : List Bar)
    (ticker : Option Ticker) (v : ℚ)
    (h20 : calculateMA klines 20 = some v) (h50 : calculateMA klines 50 = some v)
    (hrsi : calculateRSI klines 14 = 50)
    (hfvg : ¬ ((sliceLast 3 (detectFVG klines)).filter (fun f => f.type == "BULLISH")).length >
        ((sliceLast 3 (detectFVG klines)).filter (fun f => f.type == "BEARISH")).length) :
    (generateSignal symbol klines ticker).direction = "LONG" ∧
    (generateSignal symbol klines ticker).score = 50 ∧
    (generateSignal symbol klines ticker).rating = "C" := by
  obtain ⟨t, hdir, hscore, hrating⟩ := generateSignal_rating_score symbol klines ticker
  rw [hdir, hscore, hrating, h20, h50, hrsi,
      directionAndConfidence_neutral v 50 (detectFVG klines) hfvg]
  refine ⟨rfl, ?_, determineRating_conf50 t⟩
  with_unfolding_all decide

set_option maxRecDepth 8000 in
set_option maxHeartbeats 8000000 in
/-- C5 witness: on alternating50 the MAs are both 100.5, RSI is exactly 50,
there are no gaps at all, and the signal is LONG, score 50, rating C. -/
theorem C5_witness :
    (generateSignal "DOT_USDT" alternating50 (some { last := 100 })).direction = "LONG" ∧
    (generateSignal "DOT_USDT" alternating50 (some { last := 100 })).score = 50 ∧
    (generateSignal "DOT_USDT" alternating50 (some { last := 100 })).rating = "C" :=
  C5_neutral_default "DOT_USDT" alternating50 (some { last := 100 }) (201/2)
    (by with_unfolding_all decide) (by with_unfolding_all decide)
    (by with_unfolding_all decide) (by with_unfolding_all decide)

/-- C6: whenever a direction-matching fair-value gap exists (in particular
when a direction-matching order block also exists), the entry resolver
returns the FVG midline entry and never the order-block entry: rule 1
short-circuits the chain. -/
theorem C6_fvg_beats_ob (direction : String) (klines : List Bar)
    (fvgList : List FVG) (obList : List OrderBlock) (swingPoints : SwingPoints)
    (currentPrice : ℚ)
    (hfvg : ∃ f ∈ fvgList, fvgMatches direction f)
    (hob : ∃ o ∈ obList, obMatches direction o) :
    (calculateSMCEntryPrice direction klines fvgList obList swingPoints
        currentPrice).type = "FVG_MID" ∧
    (calculateSMCEntryPrice direction klines fvgList obList swingPoints
        currentPrice).type ≠ "OB_EDGE" := by
  obtain ⟨f, hf, hm⟩ := hfvg
  have hmem : f ∈ fvgList.filter (fvgMatches direction) :=
    List.mem_filter.mpr ⟨hf, hm⟩
  have hlen : (fvgList.filter (fvgMatches direction)).length > 0 :=
    List.length_pos.mpr (List.ne_nil_of_mem hmem)
  simp only [calculateSMCEntryPrice, if_pos hlen]
  split_ifs <;>
    exact ⟨rfl, by show ("FVG_MID" : String) ≠ "OB_EDGE"; decide⟩

/-- C6 witness: with one bullish gap and one bullish order block both present
for a LONG trade, the resolver picks the gap entry. -/
theorem C6_witness :
    (calculateSMCEntryPrice "LONG" [] [sampleFVG] [sampleOB] ⟨[], []⟩ 11).type
        = "FVG_MID" ∧
    (calculateSMCEntryPrice "LONG" [] [sampleFVG] [sampleOB] ⟨[], []⟩ 11).type
        ≠ "OB_EDGE" :=
  C6_fvg_beats_ob "LONG" [] [sampleFVG] [sampleOB] ⟨[], []⟩ 11
    ⟨sampleFVG, by with_unfolding_all decide, by with_unfolding_all decide⟩
    ⟨sampleOB, by with_unfolding_all decide, by with_unfolding_all decide⟩

/-- C8: every emitted fair-value gap has top strictly above bottom, and its
mid is the average of top and bottom. -/
theorem C8_fvg_top_gt_bottom (klines : List Bar) (f : FVG)
    (hf : f ∈ detectFVG klines) :
    f.bottom < f.top ∧ f.mid = (f.top + f.bottom) / 2 := by
  unfold detectFVG at hf
  rw [List.mem_flatMap] at hf
  obtain ⟨i, hi, hmem⟩ := hf
  rw [List.mem_append] at hmem
  rcases hmem with h | h
  · split_ifs at h with hc
    · rw [List.mem_singleton] at h
      subst h
      exact ⟨hc, rfl⟩
    · exact absurd h (List.not_mem_nil f)
  · split_ifs at h with hc
    · rw [List.mem_singleton] at h
      subst h
      exact ⟨hc, rfl⟩
    · exact absurd h (List.not_mem_nil f)

/-- C8 witness: the single bullish gap of gapBars3 satisfies the invariant. -/
theorem C8_witness :
    sampleFVG ∈ detectFVG gapBars3 ∧ sampleFVG.bottom < sampleFVG.top ∧
    sampleFVG.mid = (sampleFVG.top + sampleFVG.bottom) / 2 := by
  have hmem : sampleFVG ∈ detectFVG gapBars3 := by with_unfolding_all decide
  exact ⟨hmem, C8_fvg_top_gt_bottom gapBars3 sampleFVG hmem⟩

/-- Price-axis mirror of a bar: the high/low roles swap (with negated
prices), so local maxima of highs become local minima of lows. -/
def mirrorBar (b : Bar) : Bar :=
  { time := b.time, «open» := -b.«open», high := -b.low, low := -b.high,
    close := -b.close, volume := b.volume }

/-- Negate a swing point's price (its image under the mirror). -/
def negSwingPrice (p : SwingPoint) : SwingPoint :=
  { index := p.index, price := -p.price, time := p.time }

/-- The mirror fixes the default bar. -/
lemma mirrorBar_default : mirrorBar default = default := by
  simp [mirrorBar, default]

/-- getD commutes with the bar mirror. -/
lemma getD_map_mirrorBar (l : List Bar) (i : Nat) :
    (l.map mirrorBar).getD i default = mirrorBar (l.getD i default) := by
  rw [List.getD_eq_getElem?_getD, List.getD_eq_getElem?_getD, List.getElem?_map]
  cases l[i]? <;> simp [mirrorBar_default]

/-- A mirrored sequence has a swing high exactly where the original has a
swing low. -/
lemma isSwingHigh_mirror (klines : List Bar) (lookback i : Nat) :
    isSwingHigh (klines.map mirrorBar) lookback i ↔ isSwingLow klines lookback i := by
  unfold isSwingHigh isSwingLow
  refine forall₂_congr fun j hj => ?_
  rw [getD_map_mirrorBar, getD_map_mirrorBar, getD_map_mirrorBar]
  simp [mirrorBar]

/-- A mirrored sequence has a swing low exactly where the original has a
swing high. -/
lemma isSwingLow_mirror (klines : List Bar) (lookback i : Nat) :
    isSwingLow (klines.map mirrorBar) lookback i ↔ isSwingHigh klines lookback i := by
  unfold isSwingHigh isSwingLow
  refine forall₂_congr fun j hj => ?_
  rw [getD_map_mirrorBar, getD_map_mirrorBar, getD_map_mirrorBar]
  simp [mirrorBar]

/-- C9: mirroring a bar sequence's high/low roles swaps the swing-high and
swing-low outputs index for index (prices are mirrored with the data). -/
theorem C9_mirror_swaps_swings (klines : List Bar) (lookback : Nat) :
    (findSwingPoints (klines.map mirrorBar) lookback).swingHighs =
      ((findSwingPoints klines lookback).swingLows).map negSwingPrice ∧
    (findSwingPoints (klines.map mirrorBar) lookback).swingLows =
      ((findSwingPoints klines lookback).swingHighs).map negSwingPrice := by
  unfold findSwingPoints
  simp only [List.length_map]
  constructor
  · rw [List.map_filterMap]
    refine List.filterMap_congr fun i hi => ?_
    simp only [getD_map_mirrorBar, isSwingHigh_mirror]
    split_ifs with h
    · simp [mirrorBar, negSwingPrice]
    · rfl
  · rw [List.map_filterMap]
    refine List.filterMap_congr fun i hi => ?_
    simp only [getD_map_mirrorBar, isSwingLow_mirror]
    split_ifs with h
    · simp [mirrorBar, negSwingPrice]
    · rfl

/-- C10: order-block detection never examines the final bar (appending any
bar in its place gives identical output), and every reported block's
footprint index is at most length − 3. -/
theorem C10_ob_skips_final_bar (klines : List Bar) :
    (∀ b b' : Bar, detectOrderBlocks (klines ++ [b]) =
      detectOrderBlocks (klines ++ [b'])) ∧
    (∀ ob ∈ detectOrderBlocks klines, ob.index + 3 ≤ klines.length) := by
  constructor
  · intro b b'
    unfold detectOrderBlocks
    have hlen : (klines ++ [b]).length - 1 - 3 = klines.length - 3 := by simp
    have hlen' : (klines ++ [b']).length - 1 - 3 = klines.length - 3 := by simp
    rw [hlen, hlen']
    refine List.flatMap_congr fun i hi => ?_
    rw [List.mem_range'_1] at hi
    have h0 : i < klines.length := by omega
    have h1 : i - 1 < klines.length := by omega
    have h2 : i - 2 < klines.length := by omega
    rw [List.getD_append klines [b] default i h0,
        List.getD_append klines [b] default (i - 1) h1,
        List.getD_append klines [b] default (i - 2) h2,
        List.getD_append klines [b'] default i h0,
        List.getD_append klines [b'] default (i - 1) h1,
        List.getD_append klines [b'] default (i - 2) h2]
  · intro ob hob
    unfold detectOrderBlocks at hob
    rw [List.mem_flatMap] at hob
    obtain ⟨i, hi, hmem⟩ := hob
    rw [List.mem_range'_1] at hi
    rw [List.mem_append] at hmem
    rcases hmem with h | h
    · split_ifs at h with hc
      · rw [List.mem_singleton] at h
        subst h
        dsimp only
        omega
      · exact absurd h (List.not_mem_nil ob)
    · split_ifs at h with hc
      · rw [List.mem_singleton] at h
        subst h
        dsimp only
        omega
      · exact absurd h (List.not_mem_nil ob)

/-- C10 witness: obBars5 yields exactly one bullish block whose footprint
index 2 satisfies 2 + 3 ≤ 5; its reversal bar (index 3) is not the final
bar. -/
theorem C10_witness :
    detectOrderBlocks obBars5 = [sampleOB] ∧ sampleOB.index + 3 ≤ obBars5.length := by
  have hd : detectOrderBlocks obBars5 = [sampleOB] := by with_unfolding_all decide
  refine ⟨hd, (C10_ob_skips_final_bar obBars5).2 sampleOB ?_⟩
  rw [hd]
  exact List.mem_singleton.mpr rfl

/-- The emitted signal carries the symbol it was generated for. -/
lemma generateSignal_symbol (s : String) (kl : List Bar) (t : Option Ticker) :
    (generateSignal s kl t).symbol = s := rfl

/-- Each scan-loop iteration adds exactly one outcome. -/
lemma scanStep_length (kd : List (String × List Bar)) (tk : List (String × Ticker))
    (acc : List Signal × List FilteredEntry) (s : String) :
    (scanStep kd tk acc s).1.length + (scanStep kd tk acc s).2.length =
      acc.1.length + acc.2.length + 1 := by
  unfold scanStep
  split
  · simp [List.length_append]; omega
  · split_ifs with h
    · simp [List.length_append]; omega
    · split
      · simp [List.length_append]; omega
      · simp [List.length_append]; omega

/-- The scan loop adds one outcome per symbol processed. -/
lemma scanFold_length (kd : List (String × List Bar)) (tk : List (String × Ticker))
    (syms : List String) (acc : List Signal × List FilteredEntry) :
    (syms.foldl (scanStep kd tk) acc).1.length +
      (syms.foldl (scanStep kd tk) acc).2.length =
      acc.1.length + acc.2.length + syms.length := by
  induction syms generalizing acc with
  | nil => simp
  | cons s ss ih =>
    rw [List.foldl_cons, ih]
    have := scanStep_length kd tk acc s
    simp only [List.length_cons]
    omega

/-- Per-symbol outcome count over one scan-loop iteration. -/
lemma scanStep_countP (kd : List (String × List Bar)) (tk : List (String × Ticker))
    (acc : List Signal × List FilteredEntry) (s sym : String) :
    (scanStep kd tk acc s).1.countP (fun x => x.symbol == sym) +
      (scanStep kd tk acc s).2.countP (fun x => x.symbol == sym) =
      acc.1.countP (fun x => x.symbol == sym) +
        acc.2.countP (fun x => x.symbol == sym) +
        (if s = sym then 1 else 0) := by
  unfold scanStep
  split
  · simp only [List.countP_append, List.countP_cons, List.countP_nil, beq_iff_eq]
    split_ifs <;> omega
  · rename_i klines hk
    by_cases h : klines.length < MIN_KLINES
    · rw [if_pos h]
      simp only [List.countP_append, List.countP_cons, List.countP_nil, beq_iff_eq]
      split_ifs <;> omega
    · rw [if_neg h]
      split
      · simp only [List.countP_append, List.countP_cons, List.countP_nil, beq_iff_eq]
        split_ifs <;> omega
      · simp only [List.countP_append, List.countP_cons, List.countP_nil, beq_iff_eq,
          generateSignal_symbol]
        split_ifs <;> omega

/-- Per-symbol outcome count over the whole scan loop. -/
lemma scanFold_countP (kd : List (String × List Bar)) (tk : List (String × Ticker))
    (sym : String) (syms : List String) (acc : List Signal × List FilteredEntry) :
    (syms.foldl (scanStep kd tk) acc).1.countP (fun x => x.symbol == sym) +
      (syms.foldl (scanStep kd tk) acc).2.countP (fun x => x.symbol == sym) =
      acc.1.countP (fun x => x.symbol == sym) +
        acc.2.countP (fun x => x.symbol == sym) + syms.count sym := by
  induction syms generalizing acc with
  | nil => simp
  | cons s ss ih =>
    rw [List.foldl_cons, ih]
    have := scanStep_countP kd tk acc s sym
    rw [List.count_cons]
    simp only [beq_iff_eq]
    split_ifs at * <;> omega

/-- The 54 universe symbols are pairwise distinct. -/
lemma SYMBOLS_54_nodup : SYMBOLS_54.Nodup := by decide

/-- The signal list is the sorted fold output. -/
lemma scanAll_signals (kd : List (String × List Bar)) (tk : List (String × Ticker)) :
    (scanAllSymbolsV2 kd tk).signals = List.insertionSort (fun a b => b.score ≤ a.score)
      ((SYMBOLS_54.foldl (scanStep kd tk) ([], [])).1) := rfl

/-- The filtered list is the fold output. -/
lemma scanAll_filtered (kd : List (String × List Bar)) (tk : List (String × Ticker)) :
    (scanAllSymbolsV2 kd tk).filtered = (SYMBOLS_54.foldl (scanStep kd tk) ([], [])).2 := rfl

/-- total_signals is the length of the signal list. -/
lemma scanAll_total (kd : List (String × List Bar)) (tk : List (String × Ticker)) :
    (scanAllSymbolsV2 kd tk).total_signals = (scanAllSymbolsV2 kd tk).signals.length := rfl

/-- C7: every instrument of the fixed universe contributes exactly one
outcome to the scan result: signal and filtered counts sum to the universe
size, total_signals is the signal count, and each symbol appears exactly
once across the two lists. -/
theorem C7_scan_partition (klinesData : List (String × List Bar))
    (tickers : List (String × Ticker)) :
    (scanAllSymbolsV2 klinesData tickers).signals.length +
      (scanAllSymbolsV2 klinesData tickers).filtered.length = SYMBOLS_54.length ∧
    (scanAllSymbolsV2 klinesData tickers).total_signals =
      (scanAllSymbolsV2 klinesData tickers).signals.length ∧
    ∀ sym ∈ SYMBOLS_54,
      (scanAllSymbolsV2 klinesData tickers).signals.countP (fun x => x.symbol == sym) +
        (scanAllSymbolsV2 klinesData tickers).filtered.countP (fun x => x.symbol == sym) = 1 := by
  have hperm := List.perm_insertionSort (fun a b => b.score ≤ a.score)
    ((SYMBOLS_54.foldl (scanStep klinesData tickers) ([], [])).1)
  refine ⟨?_, scanAll_total klinesData tickers, ?_⟩
  · rw [scanAll_signals, scanAll_filtered, hperm.length_eq]
    have := scanFold_length klinesData tickers SYMBOLS_54 ([], [])
    simpa using this
  · intro sym hsym
    rw [scanAll_signals, scanAll_filtered, hperm.countP_eq]
    have h1 := scanFold_countP klinesData tickers sym SYMBOLS_54 ([], [])
    have h2 : SYMBOLS_54.count sym = 1 :=
      List.count_eq_one_of_mem SYMBOLS_54_nodup hsym
    simp only [List.countP_nil] at h1
    omega

/-- C7 witness: with no market data at all, every instrument is filtered:
0 + 54 = 54 and BTC_USDT appears exactly once. -/
theorem C7_witness :
    (scanAllSymbolsV2 [] []).signals.length +
        (scanAllSymbolsV2 [] []).filtered.length = SYMBOLS_54.length ∧
    (scanAllSymbolsV2 [] []).signals.countP (fun x => x.symbol == "BTC_USDT") +
      (scanAllSymbolsV2 [] []).filtered.countP (fun x => x.symbol == "BTC_USDT") = 1 :=
  ⟨(C7_scan_partition [] []).1,
   (C7_scan_partition [] []).2.2 "BTC_USDT" (by decide)⟩
